import Mathlib

/-!
Verification of the httpx command-line HTTP client (src/httpx.c).

The development shallowly embeds the pure core of the program:
the JSON pretty-printer `format_json`, the five code generators
(`generate_curl_code`, `generate_javascript_code`, `generate_python_code`,
`generate_rust_code`, `generate_java_code`), the header-splitting logic they
share, and the Content-Type auto-injection step of `configure_request`.
Output produced with `printf`/`putchar` is modelled as a returned `String`;
the `Request` struct becomes a Lean structure whose header array/count pair
becomes a `List String`.
-/

namespace Httpx

/-! ## JSON formatter (src/httpx.c, `format_json`, lines 462-510) -/

/-- The whitespace set the formatter drops outside string literals:
`c != ' ' && c != '\n' && c != '\r' && c != '\t'` negated. -/
def wsChar (c : Char) : Bool :=
  c = ' ' || c = '\n' || c = '\r' || c = '\t'

/-- `printf("%*s", indent * 2, "")`: an empty string padded to field width
`indent * 2` prints `|indent * 2|` spaces (right-justified when the width is
positive, left-justified when negative, either way only padding). -/
def indentStr (ind : Int) : String :=
  String.mk (List.replicate (2 * ind.natAbs) ' ')

/-- The formatter's loop state: the indent counter (a C `int`, may go
negative on malformed input), the in-string flag, and `prev_char`, the last
non-whitespace character processed (initially `NUL`). -/
structure FmtState where
  indent : Int
  in_string : Bool
  prev_char : Char
deriving Repr, DecidableEq

/-- Initial state of `format_json`: `indent = 0`, `in_string = 0`,
`prev_char = 0`. -/
def fmtInit : FmtState := ⟨0, false, Char.ofNat 0⟩

/-- One iteration of the `format_json` loop: processes character `c` with
lookahead `nxt` (`json_str[i+1]` when `i + 1 < strlen`, else `none`),
returning the new state and the text emitted for this character. -/
def fmtStep (st : FmtState) (c : Char) (nxt : Option Char) : FmtState × String :=
  -- line 505-507: prev_char is updated to every non-whitespace character
  let st' : FmtState := if wsChar c then st else { st with prev_char := c }
  if c = '"' ∧ st.prev_char ≠ '\\' then
    ({ st' with in_string := !st.in_string }, String.mk [c])
  else if st.in_string then
    (st', String.mk [c])
  else if c = '{' ∨ c = '[' then
    ({ st' with indent := st.indent + 1 },
      String.mk [c] ++
        match nxt with
        | some n => if n ≠ '}' ∧ n ≠ ']' then "\n" ++ indentStr (st.indent + 1) else ""
        | none => "")
  else if c = '}' ∨ c = ']' then
    ({ st' with indent := st.indent - 1 },
      (if st.prev_char ≠ '{' ∧ st.prev_char ≠ '[' then "\n" ++ indentStr (st.indent - 1) else "")
        ++ String.mk [c])
  else if c = ',' then
    (st', String.mk [c] ++ "\n" ++ indentStr st.indent)
  else if c = ':' then
    (st', ": ")
  else if wsChar c then
    (st, "")
  else
    (st', String.mk [c])

/-- Runs the `format_json` loop over the remaining characters, returning the
final state and the accumulated output. -/
def fmtRun (st : FmtState) : List Char → FmtState × String
  | [] => (st, "")
  | c :: rest =>
    let s1 := fmtStep st c rest.head?
    let s2 := fmtRun s1.1 rest
    (s2.1, s1.2 ++ s2.2)

/-- `format_json`: the whole loop followed by the unconditional trailing
`printf("\n")`. -/
def format_json (json_str : String) : String :=
  (fmtRun fmtInit json_str.data).2 ++ "\n"

/-! ## Request model (src/httpx.c, `Request` struct, lines 46-56)

The C fixed-size header array plus `header_count` becomes a `List String`;
the `int` flags become `Bool`; `long timeout` becomes `Int`. -/

structure Request where
  url : String
  method : String
  headers : List String
  body : String
  follow_redirects : Bool
  verbose : Bool
  timeout : Int
  auth : String
deriving Repr, DecidableEq

/-! ## Header splitting shared by the JS/Python/Rust/Java generators

Each generator copies the header into `header_copy`, finds the first `':'`
with `strchr`, splits there, and skips leading `' '` in the value
(e.g. lines 126-138). -/

/-- Split a raw header at its first colon; `none` when no colon exists. The
value has leading space characters stripped (`while(*value == ' ') value++`). -/
def splitHeader (h : String) : Option (String × String) :=
  match h.data.dropWhile (fun c => c ≠ ':') with
  | [] => none
  | _ :: after =>
    some (String.mk (h.data.takeWhile (fun c => c ≠ ':')),
          String.mk (after.dropWhile (fun c => c = ' ')))

/-- The key/value pairs a structured-header generator actually emits: one
pair per header that contains a colon, in original order. -/
def headerPairs (headers : List String) : List (String × String) :=
  headers.filterMap splitHeader

/-- The JS/Python header-loop body (lines 126-138 / 164-176): the item text
for the header at index `i` of `total` headers; headers without a colon
produce nothing, and the separating comma is printed whenever
`i < header_count - 1`, parsed or not. -/
def kvItems (total : Nat) : Nat → List String → String
  | _, [] => ""
  | i, h :: t =>
    (match splitHeader h with
     | some kv =>
       "    '" ++ kv.1 ++ "': '" ++ kv.2 ++ "'" ++ (if i < total - 1 then "," else "") ++ "\n"
     | none => "") ++ kvItems total (i + 1) t

/-! ## Code generators -/

/-- ANSI green, as in `COLOR_GREEN`. -/
def colorGreen : String := "\x1b[32m"

/-- ANSI reset, as in `COLOR_RESET`. -/
def colorReset : String := "\x1b[0m"

/-- The curl `-H` lines (lines 101-103): one ` \\\n  -H '<header>'` per raw
header, verbatim and unparsed, in original order. -/
def curlHeaders : List String → String
  | [] => ""
  | h :: t => " \\\n  -H '" ++ h ++ "'" ++ curlHeaders t

/-- Banner and command head of `generate_curl_code` (lines 98-99). -/
def curlPre (req : Request) : String :=
  "\n" ++ colorGreen ++ "=== cURL ===" ++ colorReset ++ "\n"
    ++ "curl -X " ++ req.method ++ " '" ++ req.url ++ "'"

/-- Tail of `generate_curl_code` (lines 105-116): `-d` for a non-empty body,
`-L` when following redirects, `--max-time` for a positive timeout. -/
def curlPost (req : Request) : String :=
  (if req.body ≠ "" then " \\\n  -d '" ++ req.body ++ "'" else "")
    ++ (if req.follow_redirects then " \\\n  -L" else "")
    ++ (if 0 < req.timeout then " \\\n  --max-time " ++ toString req.timeout else "")
    ++ "\n\n"

/-- `generate_curl_code` (lines 97-117). -/
def generate_curl_code (req : Request) : String :=
  curlPre req ++ curlHeaders req.headers ++ curlPost req

/-- The `headers: {...}` block of the JavaScript generator
(lines 124-140); empty when there are no headers. -/
def jsHeadersBlock (headers : List String) : String :=
  if headers ≠ [] then
    "  headers: \x7b\n" ++ kvItems headers.length 0 headers ++ "  \x7d,\n"
  else ""

/-- `generate_javascript_code` (lines 119-155). -/
def generate_javascript_code (req : Request) : String :=
  colorGreen ++ "=== JavaScript (Fetch API) ===" ++ colorReset ++ "\n"
    ++ "fetch('" ++ req.url ++ "', \x7b\n"
    ++ "  method: '" ++ req.method ++ "',\n"
    ++ jsHeadersBlock req.headers
    ++ (if req.body ≠ "" then
          if req.body.data.head? = some '{' ∨ req.body.data.head? = some '[' then
            "  body: JSON.stringify(" ++ req.body ++ ")\n"
          else
            "  body: '" ++ req.body ++ "'\n"
        else "")
    ++ "\x7d)\n"
    ++ "  .then(response => response.json())\n"
    ++ "  .then(data => console.log(data))\n"
    ++ "  .catch(error => console.error('Error:', error));\n\n"

/-- The method selector shared verbatim by the Python and Rust generators
(lines 184-188 and 207-211): GET/POST/PUT/DELETE map to their lowercase
client call, anything else to the generic `request`. -/
def lowerMethodName (m : String) : String :=
  if m = "GET" then "get"
  else if m = "POST" then "post"
  else if m = "PUT" then "put"
  else if m = "DELETE" then "delete"
  else "request"

/-- The `headers = {...}` dict of the Python generator (lines 162-178). -/
def pyHeadersBlock (headers : List String) : String :=
  if headers ≠ [] then
    "headers = \x7b\n" ++ kvItems headers.length 0 headers ++ "\x7d\n\n"
  else ""

/-- `generate_python_code` (lines 157-194). -/
def generate_python_code (req : Request) : String :=
  colorGreen ++ "=== Python (requests) ===" ++ colorReset ++ "\n"
    ++ "import requests\nimport json\n\n"
    ++ "url = '" ++ req.url ++ "'\n"
    ++ pyHeadersBlock req.headers
    ++ (if req.body ≠ "" then "data = '''" ++ req.body ++ "'''\n\n" else "")
    ++ "response = requests." ++ lowerMethodName req.method ++ "(url"
    ++ (if req.headers ≠ [] then ", headers=headers" else "")
    ++ (if req.body ≠ "" then ", data=data" else "")
    ++ ")\n"
    ++ "print(response.json())\n\n"

/-- The `.header("k", "v")` lines of the Rust generator (lines 213-223). -/
def rustHeaderLines : List String → String
  | [] => ""
  | h :: t =>
    (match splitHeader h with
     | some kv => "        .header(\"" ++ kv.1 ++ "\", \"" ++ kv.2 ++ "\")\n"
     | none => "") ++ rustHeaderLines t

/-- `generate_rust_code` (lines 196-235). -/
def generate_rust_code (req : Request) : String :=
  colorGreen ++ "=== Rust (reqwest) ===" ++ colorReset ++ "\n"
    ++ "use reqwest;\n\n"
    ++ "#[tokio::main]\n"
    ++ "async fn main() -> Result<(), Box<dyn std::error::Error>> \x7b\n"
    ++ "    let client = reqwest::Client::new();\n"
    ++ (if req.body ≠ "" then "    let body = r#\"" ++ req.body ++ "\"#;\n\n" else "")
    ++ "    let response = client." ++ lowerMethodName req.method
    ++ "(\"" ++ req.url ++ "\")\n"
    ++ rustHeaderLines req.headers
    ++ (if req.body ≠ "" then "        .body(body)\n" else "")
    ++ "        .send()\n"
    ++ "        .await?;\n\n"
    ++ "    let body = response.text().await?;\n"
    ++ "    println!(\"\x7b\x7d\", body);\n"
    ++ "    Ok(())\n"
    ++ "\x7d\n\n"

/-- The Java body-publisher method selector (lines 270-273), used only when
a body is present: GET/POST/PUT/DELETE map to themselves, anything else to
the generic token `method`. -/
def javaBodyMethodName (m : String) : String :=
  if m = "GET" then "GET"
  else if m = "POST" then "POST"
  else if m = "PUT" then "PUT"
  else if m = "DELETE" then "DELETE"
  else "method"

/-- The `.header("k", "v")` lines of the Java generator (lines 256-266). -/
def javaHeaderLines : List String → String
  | [] => ""
  | h :: t =>
    (match splitHeader h with
     | some kv => "            .header(\"" ++ kv.1 ++ "\", \"" ++ kv.2 ++ "\")\n"
     | none => "") ++ javaHeaderLines t

/-- `generate_java_code` (lines 237-284). With a body present the builder
call uses `javaBodyMethodName`; with no body it interpolates the raw method
token into the `noBody` call (line 275). -/
def generate_java_code (req : Request) : String :=
  colorGreen ++ "=== Java (HttpClient) ===" ++ colorReset ++ "\n"
    ++ "import java.net.URI;\n"
    ++ "import java.net.http.HttpClient;\n"
    ++ "import java.net.http.HttpRequest;\n"
    ++ "import java.net.http.HttpResponse;\n\n"
    ++ "public class HttpExample \x7b\n"
    ++ "    public static void main(String[] args) throws Exception \x7b\n"
    ++ "        HttpClient client = HttpClient.newHttpClient();\n"
    ++ (if req.body ≠ "" then
          "        String jsonBody = \"\"\"\n" ++ "            " ++ req.body ++ "\n"
            ++ "            \"\"\";\n\n"
        else "")
    ++ "        HttpRequest.Builder builder = HttpRequest.newBuilder()\n"
    ++ "            .uri(URI.create(\"" ++ req.url ++ "\"))\n"
    ++ javaHeaderLines req.headers
    ++ (if req.body ≠ "" then
          "            ." ++ javaBodyMethodName req.method
            ++ "(HttpRequest.BodyPublishers.ofString(jsonBody));\n"
        else
          "            ." ++ req.method ++ "(HttpRequest.BodyPublishers.noBody());\n")
    ++ "\n        HttpRequest request = builder.build();\n"
    ++ "        HttpResponse<String> response = client.send(request,\n"
    ++ "            HttpResponse.BodyHandlers.ofString());\n"
    ++ "        System.out.println(response.body());\n"
    ++ "    \x7d\n"
    ++ "\x7d\n\n"

/-- The five target languages of the code generator menu. -/
inductive Lang
  | curl
  | javascript
  | python
  | rust
  | java
deriving Repr, DecidableEq

/-- State-passing embedding of the generators: each C generator receives
`Request *req`; the pair returned here is (the request as left in memory
when the generator returns, the text printed). No statement of any
generator writes through `req` — each splits headers only on its local
`header_copy` — so the returned request is the one passed in. -/
def render : Lang → Request → Request × String
  | Lang.curl, req => (req, generate_curl_code req)
  | Lang.javascript, req => (req, generate_javascript_code req)
  | Lang.python, req => (req, generate_python_code req)
  | Lang.rust, req => (req, generate_rust_code req)
  | Lang.java, req => (req, generate_java_code req)

/-! ## Content-Type auto-injection (src/httpx.c, `configure_request`,
lines 550-566) -/

/-- C `tolower` for the ASCII letters, as used by `strncasecmp`. -/
def toLowerC (c : Char) : Char :=
  if 'A' ≤ c ∧ c ≤ 'Z' then Char.ofNat (c.toNat + 32) else c

/-- `strncasecmp(a, b, n) == 0` on NUL-free strings: the first `n`
characters agree case-insensitively, a string ending early (NUL against a
remaining character) being a mismatch. -/
def ciEqN : List Char → List Char → Nat → Bool
  | _, _, 0 => true
  | [], [], _ + 1 => true
  | [], _ :: _, _ + 1 => false
  | _ :: _, [], _ + 1 => false
  | x :: xs, y :: ys, n + 1 => toLowerC x = toLowerC y && ciEqN xs ys n

/-- The scan of lines 553-559: some existing header satisfies
`strncasecmp(header, "Content-Type:", 13) == 0`. -/
def hasContentType (headers : List String) : Bool :=
  headers.any (fun h => ciEqN h.data "Content-Type:".data 13)

/-- Lines 550-566 of `configure_request`: after the body is read, when its
first character is `{` or `[`, no header already matches `Content-Type:`
and the header array is not full (`header_count < MAX_HEADERS = 50`),
append `Content-Type: application/json`. -/
def autoAddContentType (headers : List String) (body : String) : List String :=
  if body.data.head? = some '{' ∨ body.data.head? = some '[' then
    if hasContentType headers = false ∧ headers.length < 50 then
      headers ++ ["Content-Type: application/json"]
    else headers
  else headers

/-! ## Spec-side definitions, used only to compare the code's behaviour
with the specification's wording -/

/-- Claim wording for the in-string flag: the flag's value after a
left-to-right pass in which a `"` toggles it unless the *immediately
preceding input character* was a backslash. -/
def specInStringGo : Option Char → Bool → List Char → Bool
  | _, flag, [] => flag
  | prev, flag, c :: rest =>
    specInStringGo (some c) (if c = '"' ∧ prev ≠ some '\\' then !flag else flag) rest

/-- The in-string flag after the whole input, under the claim's
immediately-preceding-character rule. -/
def specInString (l : List Char) : Bool := specInStringGo none false l

/-- Claim wording for the body sniff: the body's first non-space
character. -/
def specFirstNonSpace (s : String) : Option Char :=
  (s.data.dropWhile (fun c => c = ' ')).head?

/-! ## Substring search, used to state that a token does not occur in a
generated snippet -/

/-- `hasPre pat l`: `pat` is a prefix of `l`. -/
def hasPre : List Char → List Char → Bool
  | [], _ => true
  | _ :: _, [] => false
  | p :: ps, c :: cs => p = c && hasPre ps cs

/-- `occursIn pat l`: `pat` occurs contiguously somewhere in `l`. -/
def occursIn (pat : List Char) : List Char → Bool
  | [] => pat.isEmpty
  | c :: cs => hasPre pat (c :: cs) || occursIn pat cs

/-! ## Concrete requests used as test vectors -/

/-- A PATCH request; the body parameter lets both the body and no-body
paths of the Java generator be exercised. -/
def patchReq (body : String) : Request :=
  ⟨"https://api.example.com/v1/item", "PATCH", [], body, true, false, 0, ""⟩

/-- A GET request carrying exactly the two well-formed headers of the
spec's renderer test vector. -/
def reqTwoHeaders : Request :=
  ⟨"https://example.com", "GET", ["Content-Type: application/json", "X-Test: 1"], "",
    true, false, 0, ""⟩

/-- A GET request whose single header has no colon. -/
def reqMalformed : Request :=
  ⟨"https://example.com", "GET", ["malformed-header"], "", true, false, 0, ""⟩

/-! ## Shared lemmas -/

/-- Merging a literal split across an append chain. -/
theorem append_lit_merge (s t u R : String) (h : s ++ t = u) :
    s ++ (t ++ R) = u ++ R := by
  rw [← String.append_assoc, h]

/-- The in-string flag is unchanged by any step that is not an unescaped
double quote. -/
theorem fmtStep_in_string_eq (st : FmtState) (c : Char) (nxt : Option Char)
    (h : ¬(c = '"' ∧ st.prev_char ≠ '\\')) :
    (fmtStep st c nxt).1.in_string = st.in_string := by
  have h1 : (if wsChar c then st else { st with prev_char := c }).in_string = st.in_string := by
    split <;> rfl
  simp only [fmtStep]
  rw [if_neg h]
  split_ifs <;> simp [h1]

/-- An unescaped double quote inverts the in-string flag. -/
theorem fmtStep_in_string_toggle (st : FmtState) (c : Char) (nxt : Option Char)
    (h : c = '"' ∧ st.prev_char ≠ '\\') :
    (fmtStep st c nxt).1.in_string = !st.in_string := by
  simp only [fmtStep]
  rw [if_pos h]

/-! ## Claim C1 -/

/-- C1: the JSON formatter maps the spec's example inputs exactly:
`format("{}")` and `format("[]")` return themselves plus a newline, and the
six-line example is reproduced with two-space indentation and a trailing
newline. -/
theorem C1_format_json_examples :
    format_json "\x7b\x7d" = "\x7b\x7d\n"
    ∧ format_json "[]" = "[]\n"
    ∧ format_json "\x7b\"a\":1,\"b\":[1,2]\x7d" =
        "\x7b\n  \"a\": 1,\n  \"b\": [\n    1,\n    2\n  ]\n\x7d\n" := by
  refine ⟨by decide, by decide, by decide⟩

/-! ## Claim C2 -/

/-- C2 counterexample: on the input `"\ "` (quote, backslash, space, quote)
the claim's rule — a quote toggles unless the *immediately preceding*
character was a backslash — ends with the in-string flag cleared, since the
character right before the final quote is a space; the code tracks the
previous *non-whitespace* character, still sees the backslash, and leaves
the flag set. -/
theorem C2_counterexample :
    specInString ("\"\\ \"").data = false
    ∧ (fmtRun fmtInit ("\"\\ \"").data).1.in_string = true := by
  refine ⟨by decide, by decide⟩

/-- C2 (amended): while the in-string flag is set every character that is
not an unescaped quote is emitted verbatim and leaves the flag set; a
double quote toggles the flag exactly when the previous **non-whitespace**
character (initially `NUL`) was not a backslash; and the spec's example
`format("{\"a\":\"x{y\"}")` leaves the `{` embedded in the string literal
untouched. -/
theorem C2_in_string_verbatim_and_toggle (st : FmtState) (c : Char) (nxt : Option Char) :
    (st.in_string = true → ¬(c = '"' ∧ st.prev_char ≠ '\\') →
      (fmtStep st c nxt).2 = String.mk [c] ∧ (fmtStep st c nxt).1.in_string = true)
    ∧ ((fmtStep st c nxt).1.in_string ≠ st.in_string ↔ (c = '"' ∧ st.prev_char ≠ '\\'))
    ∧ format_json "\x7b\"a\":\"x\x7by\"\x7d" = "\x7b\n  \"a\": \"x\x7by\"\n\x7d\n" := by
  refine ⟨?_, ?_, by decide⟩
  · intro hin hnot
    constructor
    · simp only [fmtStep]
      rw [if_neg hnot, if_pos hin]
    · rw [fmtStep_in_string_eq st c nxt hnot, hin]
  · constructor
    · intro hne
      by_contra h
      exact hne (fmtStep_in_string_eq st c nxt h)
    · intro h
      rw [fmtStep_in_string_toggle st c nxt h]
      simp

/-- C2 witness: inside a string literal, a structural `,` is emitted
verbatim and the flag stays set. -/
theorem C2_witness :
    (fmtStep ⟨0, true, 'a'⟩ ',' none).2 = String.mk [',']
    ∧ (fmtStep ⟨0, true, 'a'⟩ ',' none).1.in_string = true :=
  (C2_in_string_verbatim_and_toggle ⟨0, true, 'a'⟩ ',' none).1 rfl (by decide)

/-! ## Claim C3 -/

/-- C3 counterexample: `]` is not the matching close of `{`, yet stepping
`{` with lookahead `]` emits no newline — the code suppresses the newline
when the next character is *either* close bracket; on the full input
`"{]"` the output is `"{]\n"` with no line break after the `{`. -/
theorem C3_counterexample :
    (']' ≠ '}')
    ∧ (fmtStep fmtInit '{' (some ']')).2 = String.mk ['{']
    ∧ format_json "\x7b]" = "\x7b]\n" := by
  refine ⟨by decide, by decide, by decide⟩

/-- C3 (amended): emitting `{` or `[` outside a string literal increments
the indent level and emits a newline plus indent-many double-spaces unless
the very next input character is `}` *or* `]` (either close bracket, not
only the matching one) or the bracket is the last character of the
input. -/
theorem C3_open_bracket (st : FmtState) (c : Char) (nxt : Option Char)
    (hin : st.in_string = false) (hc : c = '{' ∨ c = '[') :
    (fmtStep st c nxt).1.indent = st.indent + 1
    ∧ ((nxt = none ∨ nxt = some '}' ∨ nxt = some ']') →
        (fmtStep st c nxt).2 = String.mk [c])
    ∧ (∀ n, nxt = some n → n ≠ '}' → n ≠ ']' →
        (fmtStep st c nxt).2 = String.mk [c] ++ ("\n" ++ indentStr (st.indent + 1))) := by
  have hstep : fmtStep st c nxt =
      ({ (if wsChar c then st else { st with prev_char := c }) with indent := st.indent + 1 },
        String.mk [c] ++
          match nxt with
          | some n => if n ≠ '}' ∧ n ≠ ']' then "\n" ++ indentStr (st.indent + 1) else ""
          | none => "") := by
    have hq : ¬(c = '"' ∧ st.prev_char ≠ '\\') := by
      rcases hc with rfl | rfl <;> simp
    have hbool : ¬(st.in_string = true) := by rw [hin]; simp
    simp only [fmtStep]
    rw [if_neg hq, if_neg hbool, if_pos hc]
  refine ⟨by rw [hstep], ?_, ?_⟩
  · intro hnxt
    rcases hnxt with rfl | rfl | rfl <;> simp [hstep, String.append_empty]
  · intro n hn h1 h2
    subst hn
    rw [hstep]
    simp [h1, h2]

/-- C3 witness: `[` at indent 0 with lookahead `1` emits the bracket, a
newline and one two-space indent. -/
theorem C3_witness :
    (fmtStep fmtInit '[' (some '1')).1.indent = fmtInit.indent + 1
    ∧ (fmtStep fmtInit '[' (some '1')).2 = String.mk ['['] ++ ("\n" ++ indentStr (fmtInit.indent + 1)) :=
  ⟨(C3_open_bracket fmtInit '[' (some '1') rfl (Or.inr rfl)).1,
   (C3_open_bracket fmtInit '[' (some '1') rfl (Or.inr rfl)).2.2 '1' rfl (by decide) (by decide)⟩

/-! ## Claim C9 -/

/-- C9: on every input — malformed or not — the formatter is a total
function of the input string (so it terminates, never signals an error,
and is deterministic), and its output always ends in a newline. -/
theorem C9_total_and_trailing_newline (s : String) :
    (∃ t, format_json s = t ++ "\n")
    ∧ (format_json s).data.getLast? = some '\n' := by
  refine ⟨⟨(fmtRun fmtInit s.data).2, rfl⟩, ?_⟩
  show ((fmtRun fmtInit s.data).2 ++ "\n").data.getLast? = some '\n'
  rw [String.data_append]
  exact List.getLast?_concat _

/-! ## Claim C10 -/

/-- C10: every code generator leaves the request it renders unchanged: the
state-passing embedding of each generator returns the request exactly as it
received it (each splits headers only on a private copy). -/
theorem C10_render_preserves_request (lang : Lang) (req : Request) :
    (render lang req).1 = req := by
  cases lang <;> rfl

/-! ## Claim C5 -/

/-- `strncasecmp` agreement over `n` characters is case-folded equality of
the first `n` characters, provided the pattern has exactly `n`
characters. -/
theorem ciEqN_eq_true_iff (n : Nat) (pat h : List Char) (hlen : pat.length = n) :
    ciEqN h pat n = true ↔ (h.take n).map toLowerC = pat.map toLowerC := by
  induction n generalizing pat h with
  | zero =>
    have hp : pat = [] := List.length_eq_zero.mp hlen
    subst hp
    simp [ciEqN]
  | succ n ih =>
    cases pat with
    | nil => simp at hlen
    | cons p ps =>
      cases h with
      | nil => simp [ciEqN]
      | cons x xs =>
        have hlen' : ps.length = n := by simpa using hlen
        simp [ciEqN, ih ps xs hlen']

/-- C5 counterexample: a body whose first *non-space* character is `{` but
whose first character is a space: the claim demands the Content-Type header
be appended, yet the code tests `body[0]` directly and leaves the header
list unchanged. -/
theorem C5_counterexample :
    specFirstNonSpace " \x7b" = some '{'
    ∧ autoAddContentType [] " \x7b" = [] := by
  refine ⟨by decide, by decide⟩

/-- C5 (amended): when a new request is configured with a non-empty body,
if the body's **first** character is `{` or `[`, no existing header starts
(case-insensitively) with `Content-Type:` — equivalently, no header key
case-insensitively equals `Content-Type` — and the header list is not full
(fewer than `MAX_HEADERS = 50` entries), then
`Content-Type: application/json` is appended; otherwise the header list is
left unchanged by this step. -/
theorem C5_auto_content_type (headers : List String) (body : String) :
    ((body.data.head? = some '{' ∨ body.data.head? = some '[') →
      (∀ h ∈ headers, (h.data.take 13).map toLowerC ≠ "content-type:".data) →
      headers.length < 50 →
      autoAddContentType headers body = headers ++ ["Content-Type: application/json"])
    ∧ (body.data.head? ≠ some '{' → body.data.head? ≠ some '[' →
        autoAddContentType headers body = headers)
    ∧ ((∃ h ∈ headers, (h.data.take 13).map toLowerC = "content-type:".data) →
        autoAddContentType headers body = headers) := by
  have hchar : ∀ h : String, ciEqN h.data "Content-Type:".data 13 = true ↔
      (h.data.take 13).map toLowerC = "content-type:".data := by
    intro h
    rw [ciEqN_eq_true_iff 13 "Content-Type:".data h.data (by decide)]
    rw [show ("Content-Type:".data).map toLowerC = "content-type:".data from by decide]
  refine ⟨?_, ?_, ?_⟩
  · intro hb hnone hlen
    have hct : hasContentType headers = false := by
      simp only [hasContentType, List.any_eq_false]
      exact fun h hmem hx => hnone h hmem ((hchar h).mp hx)
    unfold autoAddContentType
    rw [if_pos hb, if_pos ⟨hct, hlen⟩]
  · intro h1 h2
    unfold autoAddContentType
    rw [if_neg (fun hor => hor.elim h1 h2)]
  · rintro ⟨h, hmem, hkey⟩
    have hct : hasContentType headers = true := by
      simp only [hasContentType, List.any_eq_true]
      exact ⟨h, hmem, (hchar h).mpr hkey⟩
    unfold autoAddContentType
    split
    · rw [if_neg (fun hcon => by simp [hct] at hcon)]
    · rfl

/-- C5 witness: a body starting with `{` and an empty header list get the
Content-Type header appended. -/
theorem C5_witness :
    autoAddContentType [] "\x7b\"a\":1\x7d" = [] ++ ["Content-Type: application/json"] :=
  (C5_auto_content_type [] "\x7b\"a\":1\x7d").1 (Or.inl rfl)
    (by simp) (by decide)

/-! ## Claim C6 -/

/-- C6: with the header list
`["Content-Type: application/json", "X-Test: 1"]`, the JavaScript and
Python generators each emit exactly the two key/value pairs, in insertion
order, with leading spaces of the value trimmed. -/
theorem C6_two_header_pairs (req : Request)
    (hh : req.headers = ["Content-Type: application/json", "X-Test: 1"]) :
    headerPairs req.headers = [("Content-Type", "application/json"), ("X-Test", "1")]
    ∧ jsHeadersBlock req.headers =
        "  headers: \x7b\n    'Content-Type': 'application/json',\n    'X-Test': '1'\n  \x7d,\n"
    ∧ pyHeadersBlock req.headers =
        "headers = \x7b\n    'Content-Type': 'application/json',\n    'X-Test': '1'\n\x7d\n\n" := by
  rw [hh]
  refine ⟨by decide, by decide, by decide⟩

/-- C6 witness: the concrete two-header request. -/
theorem C6_witness :
    headerPairs reqTwoHeaders.headers = [("Content-Type", "application/json"), ("X-Test", "1")]
    ∧ jsHeadersBlock reqTwoHeaders.headers =
        "  headers: \x7b\n    'Content-Type': 'application/json',\n    'X-Test': '1'\n  \x7d,\n"
    ∧ pyHeadersBlock reqTwoHeaders.headers =
        "headers = \x7b\n    'Content-Type': 'application/json',\n    'X-Test': '1'\n\x7d\n\n" :=
  C6_two_header_pairs reqTwoHeaders rfl

/-! ## Claim C7 -/

/-- A header without a colon fails to split. -/
theorem splitHeader_eq_none (h : String) (hnc : ∀ c ∈ h.data, c ≠ ':') :
    splitHeader h = none := by
  unfold splitHeader
  have hd : h.data.dropWhile (fun c => c ≠ ':') = [] := by
    rw [List.dropWhile_eq_nil_iff]
    intro x hx
    simpa using hnc x hx
  rw [hd]

/-- The curl `-H` lines distribute over header-list concatenation. -/
theorem curlHeaders_append (l1 l2 : List String) :
    curlHeaders (l1 ++ l2) = curlHeaders l1 ++ curlHeaders l2 := by
  induction l1 with
  | nil => simp [curlHeaders, String.empty_append]
  | cons h t ih => simp [curlHeaders, ih, String.append_assoc]

/-- C7: a header with no colon is silently dropped from the structured
key/value output of the JavaScript/Python loop body (`kvItems`), the Rust
and the Java header lines, and contributes no pair to `headerPairs`; the
curl generator still prints it verbatim in a ` -H '<header>'` line. -/
theorem C7_no_colon_header (req : Request) (hs1 hs2 : List String) (h : String)
    (hsplit : req.headers = hs1 ++ h :: hs2) (hnc : ∀ c ∈ h.data, c ≠ ':') :
    splitHeader h = none
    ∧ (∀ total i, kvItems total i [h] = "")
    ∧ rustHeaderLines [h] = ""
    ∧ javaHeaderLines [h] = ""
    ∧ headerPairs req.headers = headerPairs (hs1 ++ hs2)
    ∧ ∃ x y, generate_curl_code req = x ++ (" \\\n  -H '" ++ (h ++ ("'" ++ y))) := by
  have hsn := splitHeader_eq_none h hnc
  refine ⟨hsn, ?_, ?_, ?_, ?_, ?_⟩
  · intro total i
    simp [kvItems, hsn]
  · simp [rustHeaderLines, hsn]
  · simp [javaHeaderLines, hsn]
  · simp [headerPairs, hsplit, List.filterMap_append, List.filterMap_cons, hsn]
  · refine ⟨curlPre req ++ curlHeaders hs1, curlHeaders hs2 ++ curlPost req, ?_⟩
    unfold generate_curl_code
    rw [hsplit, curlHeaders_append]
    simp [curlHeaders, String.append_assoc]

/-- C7 witness: the request whose only header is `malformed-header`. -/
theorem C7_witness :
    splitHeader "malformed-header" = none
    ∧ kvItems 1 0 ["malformed-header"] = ""
    ∧ rustHeaderLines ["malformed-header"] = ""
    ∧ javaHeaderLines ["malformed-header"] = ""
    ∧ headerPairs reqMalformed.headers = headerPairs ([] ++ []) :=
  have H := C7_no_colon_header reqMalformed [] [] "malformed-header" rfl (by decide)
  ⟨H.1, H.2.1 1 0, H.2.2.1, H.2.2.2.1, H.2.2.2.2.1⟩

/-! ## Claim C8 -/

/-- Folding string concatenation from an arbitrary accumulator. -/
theorem strFoldlAppend (l : List String) (x : String) :
    l.foldl (fun r s => r ++ s) x = x ++ l.foldl (fun r s => r ++ s) "" := by
  induction l generalizing x with
  | nil => simp [String.append_empty]
  | cons h t ih =>
    simp only [List.foldl]
    rw [ih (x ++ h), ih ("" ++ h), String.empty_append, String.append_assoc]

/-- `String.join` peels its head element. -/
theorem strJoinCons (x : String) (l : List String) :
    String.join (x :: l) = x ++ String.join l := by
  simp only [String.join, List.foldl]
  rw [strFoldlAppend l ("" ++ x), String.empty_append]

/-- C8: the curl generator emits its banner, then
`curl -X <METHOD> '<url>'`, then one ` -H '<header>'` continuation line per
header in original order with the raw header verbatim, then `-d '<body>'`
iff the body is non-empty, then `-L` iff redirects are followed, then
`--max-time <timeout>` iff the timeout is positive, in exactly that
order. -/
theorem C8_curl_template (req : Request) :
    generate_curl_code req =
      "\n" ++ colorGreen ++ "=== cURL ===" ++ colorReset ++ "\n"
        ++ "curl -X " ++ req.method ++ " '" ++ req.url ++ "'"
        ++ curlHeaders req.headers
        ++ (if req.body ≠ "" then " \\\n  -d '" ++ req.body ++ "'" else "")
        ++ (if req.follow_redirects then " \\\n  -L" else "")
        ++ (if 0 < req.timeout then " \\\n  --max-time " ++ toString req.timeout else "")
        ++ "\n\n"
    ∧ curlHeaders req.headers =
        String.join (req.headers.map (fun h => " \\\n  -H '" ++ h ++ "'")) := by
  constructor
  · simp [generate_curl_code, curlPre, curlPost, String.append_assoc]
  · induction req.headers with
    | nil => rfl
    | cons h t ih =>
      rw [List.map_cons, strJoinCons, ← ih]
      rfl

/-! ## Claim C4 -/

set_option maxRecDepth 20000 in
/-- C4 counterexample: for a PATCH request with a non-empty body, the Java
generator's output does not contain the token `PATCH` at all — the
body-publisher line falls back to the generic token `method`. -/
theorem C4_counterexample :
    occursIn "PATCH".data (generate_java_code (patchReq "\x7b\"x\":1\x7d")).data = false
    ∧ (∃ x y, generate_java_code (patchReq "\x7b\"x\":1\x7d") =
        x ++ ("            .method(HttpRequest.BodyPublishers.ofString(jsonBody));\n" ++ y)) := by
  constructor
  · decide
  · refine ⟨colorGreen ++ "=== Java (HttpClient) ===" ++ colorReset ++ "\n"
      ++ "import java.net.URI;\n"
      ++ "import java.net.http.HttpClient;\n"
      ++ "import java.net.http.HttpRequest;\n"
      ++ "import java.net.http.HttpResponse;\n\n"
      ++ "public class HttpExample \x7b\n"
      ++ "    public static void main(String[] args) throws Exception \x7b\n"
      ++ "        HttpClient client = HttpClient.newHttpClient();\n"
      ++ "        String jsonBody = \"\"\"\n" ++ "            " ++ "\x7b\"x\":1\x7d" ++ "\n"
      ++ "            \"\"\";\n\n"
      ++ "        HttpRequest.Builder builder = HttpRequest.newBuilder()\n"
      ++ "            .uri(URI.create(\"" ++ "https://api.example.com/v1/item" ++ "\"))\n",
      "\n        HttpRequest request = builder.build();\n"
      ++ "        HttpResponse<String> response = client.send(request,\n"
      ++ "            HttpResponse.BodyHandlers.ofString());\n"
      ++ "        System.out.println(response.body());\n"
      ++ "    \x7d\n" ++ "\x7d\n\n", ?_⟩
    decide

/-- C4 (amended): for the method `PATCH`, the Python and Rust generators
fall back to their generic request-call form (`requests.request(url, ...)`
and `client.request("...")`), and the curl generator uses the literal token
`PATCH`; the Java generator uses the literal token `PATCH` only when the
body is empty (in the `noBody` publisher line) — with a non-empty body it
falls back to the generic token `method`. -/
theorem C4_patch_mapping (req : Request) (hm : req.method = "PATCH") :
    lowerMethodName req.method = "request"
    ∧ javaBodyMethodName req.method = "method"
    ∧ (∃ x y, generate_curl_code req = x ++ ("curl -X PATCH '" ++ y))
    ∧ (∃ x y, generate_python_code req = x ++ ("response = requests.request(url" ++ y))
    ∧ (∃ x y, generate_rust_code req = x ++ ("    let response = client.request(\"" ++ y))
    ∧ (req.body = "" → ∃ x y, generate_java_code req =
        x ++ ("            .PATCH(HttpRequest.BodyPublishers.noBody());\n" ++ y))
    ∧ (req.body ≠ "" → ∃ x y, generate_java_code req =
        x ++ ("            .method(HttpRequest.BodyPublishers.ofString(jsonBody));\n" ++ y)) := by
  refine ⟨by rw [hm]; decide, by rw [hm]; decide, ?_, ?_, ?_, ?_, ?_⟩
  · have ecurl : ∀ R : String,
        "curl -X " ++ ("PATCH" ++ (" '" ++ R)) = "curl -X PATCH '" ++ R := by
      intro R
      rw [append_lit_merge "PATCH" " '" "PATCH '" R (by decide),
        append_lit_merge "curl -X " "PATCH '" "curl -X PATCH '" R (by decide)]
    refine ⟨"\n" ++ colorGreen ++ "=== cURL ===" ++ colorReset ++ "\n",
      req.url ++ ("'" ++ (curlHeaders req.headers ++ curlPost req)), ?_⟩
    simp only [generate_curl_code, curlPre, hm, String.append_assoc]
    rw [ecurl]
  · have epy : ∀ R : String,
        "response = requests." ++ ("request" ++ ("(url" ++ R)) =
          "response = requests.request(url" ++ R := by
      intro R
      rw [append_lit_merge "request" "(url" "request(url" R (by decide),
        append_lit_merge "response = requests." "request(url"
          "response = requests.request(url" R (by decide)]
    refine ⟨colorGreen ++ "=== Python (requests) ===" ++ colorReset ++ "\n"
      ++ "import requests\nimport json\n\n"
      ++ "url = '" ++ req.url ++ "'\n"
      ++ pyHeadersBlock req.headers
      ++ (if req.body ≠ "" then "data = '''" ++ req.body ++ "'''\n\n" else ""),
      (if req.headers ≠ [] then ", headers=headers" else "")
      ++ (if req.body ≠ "" then ", data=data" else "")
      ++ ")\n" ++ "print(response.json())\n\n", ?_⟩
    simp only [generate_python_code, hm, String.append_assoc]
    rw [show lowerMethodName "PATCH" = "request" from by decide]
    rw [epy]
  · have erust : ∀ R : String,
        "    let response = client." ++ ("request" ++ ("(\"" ++ R)) =
          "    let response = client.request(\"" ++ R := by
      intro R
      rw [append_lit_merge "request" "(\"" "request(\"" R (by decide),
        append_lit_merge "    let response = client." "request(\""
          "    let response = client.request(\"" R (by decide)]
    refine ⟨colorGreen ++ "=== Rust (reqwest) ===" ++ colorReset ++ "\n"
      ++ "use reqwest;\n\n"
      ++ "#[tokio::main]\n"
      ++ "async fn main() -> Result<(), Box<dyn std::error::Error>> \x7b\n"
      ++ "    let client = reqwest::Client::new();\n"
      ++ (if req.body ≠ "" then "    let body = r#\"" ++ req.body ++ "\"#;\n\n" else ""),
      req.url ++ "\")\n" ++ rustHeaderLines req.headers
        ++ (if req.body ≠ "" then "        .body(body)\n" else "")
        ++ "        .send()\n" ++ "        .await?;\n\n"
        ++ "    let body = response.text().await?;\n"
        ++ "    println!(\"\x7b\x7d\", body);\n"
        ++ "    Ok(())\n" ++ "\x7d\n\n", ?_⟩
    simp only [generate_rust_code, hm, String.append_assoc]
    rw [show lowerMethodName "PATCH" = "request" from by decide]
    rw [erust]
  · intro hbe
    refine ⟨colorGreen ++ "=== Java (HttpClient) ===" ++ colorReset ++ "\n"
      ++ "import java.net.URI;\n"
      ++ "import java.net.http.HttpClient;\n"
      ++ "import java.net.http.HttpRequest;\n"
      ++ "import java.net.http.HttpResponse;\n\n"
      ++ "public class HttpExample \x7b\n"
      ++ "    public static void main(String[] args) throws Exception \x7b\n"
      ++ "        HttpClient client = HttpClient.newHttpClient();\n"
      ++ "        HttpRequest.Builder builder = HttpRequest.newBuilder()\n"
      ++ "            .uri(URI.create(\"" ++ req.url ++ "\"))\n"
      ++ javaHeaderLines req.headers,
      "\n        HttpRequest request = builder.build();\n"
      ++ "        HttpResponse<String> response = client.send(request,\n"
      ++ "            HttpResponse.BodyHandlers.ofString());\n"
      ++ "        System.out.println(response.body());\n"
      ++ "    \x7d\n" ++ "\x7d\n\n", ?_⟩
    simp [generate_java_code, hm, hbe, String.append_assoc, String.empty_append]
  · intro hb
    have ej : ∀ R : String,
        "            ." ++ ("method" ++ ("(HttpRequest.BodyPublishers.ofString(jsonBody));\n" ++ R)) =
          "            .method(HttpRequest.BodyPublishers.ofString(jsonBody));\n" ++ R := by
      intro R
      rw [append_lit_merge "method" "(HttpRequest.BodyPublishers.ofString(jsonBody));\n"
          "method(HttpRequest.BodyPublishers.ofString(jsonBody));\n" R (by decide),
        append_lit_merge "            ." "method(HttpRequest.BodyPublishers.ofString(jsonBody));\n"
          "            .method(HttpRequest.BodyPublishers.ofString(jsonBody));\n" R (by decide)]
    refine ⟨colorGreen ++ "=== Java (HttpClient) ===" ++ colorReset ++ "\n"
      ++ "import java.net.URI;\n"
      ++ "import java.net.http.HttpClient;\n"
      ++ "import java.net.http.HttpRequest;\n"
      ++ "import java.net.http.HttpResponse;\n\n"
      ++ "public class HttpExample \x7b\n"
      ++ "    public static void main(String[] args) throws Exception \x7b\n"
      ++ "        HttpClient client = HttpClient.newHttpClient();\n"
      ++ "        String jsonBody = \"\"\"\n" ++ "            " ++ req.body ++ "\n"
      ++ "            \"\"\";\n\n"
      ++ "        HttpRequest.Builder builder = HttpRequest.newBuilder()\n"
      ++ "            .uri(URI.create(\"" ++ req.url ++ "\"))\n"
      ++ javaHeaderLines req.headers,
      "\n        HttpRequest request = builder.build();\n"
      ++ "        HttpResponse<String> response = client.send(request,\n"
      ++ "            HttpResponse.BodyHandlers.ofString());\n"
      ++ "        System.out.println(response.body());\n"
      ++ "    \x7d\n" ++ "\x7d\n\n", ?_⟩
    simp only [generate_java_code, hm]
    rw [if_pos hb, if_pos hb]
    rw [show javaBodyMethodName "PATCH" = "method" from by decide]
    simp only [String.append_assoc]
    rw [ej]

/-- C4 witness: both generic-form selectors evaluated on a concrete PATCH
request. -/
theorem C4_witness :
    lowerMethodName (patchReq "").method = "request"
    ∧ javaBodyMethodName (patchReq "").method = "method" :=
  ⟨(C4_patch_mapping (patchReq "") rfl).1, (C4_patch_mapping (patchReq "") rfl).2.1⟩

end Httpx
